import Mathlib

/-!
Verification of the color/contrast subsystem of the dev-tools repository.

Two components are embedded:

* `ContrastChecker` — the WCAG luminance / contrast-ratio engine of
  `src/features/tools/contrast-checker.tsx` (functions `getLuminance`,
  `getContrast`, `getRating` and the `ratings` / `contrast` memos),
  embedded over the real numbers since the gamma curve uses a real
  exponent 2.4.

* `ColorConverter` — the parse / format / commit pipeline of
  `src/features/tools/color-converter.tsx` (functions `clamp`,
  `normalizeHue`, `trimTrailingZeros`, `formatDecimal`, `formatPercent`,
  `formatAlpha`, `parseToCanonical`, `colorToHex`, `formatValues`,
  `applyInput` and the component state), embedded over the rationals so
  that every definition is executable.

The third-party culori library is a boundary collaborator: the design
document treats it as an exact oracle for syntax recognition and
color-space transforms.  Where a claim depends on it, the library is
modelled: a color is represented by the point it denotes in sRGB
coordinates together with its mode tag, so that the library conversions
(exact bijections between spaces) only change the tag; the textual
grammar is modelled for the fragments the claims exercise (six-digit
hex, legacy hsl, legacy rgba); the numeric charts of the lab family,
whose algorithms live entirely inside the library, are abstracted as a
parameter `LabCharts` and every theorem holds for all charts.
-/

namespace ContrastChecker

/-- Result of the culori `toRgb` converter: an rgb record whose channels
the source reads with a defensive `?? 0`, hence `Option` channels. -/
structure RgbTriple where
  r : Option ℝ
  g : Option ℝ
  b : Option ℝ

/-- A culori color abstracted by the image of the library `toRgb`
converter on it (the only observation `getLuminance` makes of a color):
`none` models a failed conversion, which the source maps to luminance 0. -/
structure Color where
  rgb : Option RgbTriple

/-- Library oracle `converter("rgb")` as used by `getLuminance`. -/
def toRgb (color : Color) : Option RgbTriple :=
  color.rgb

/-- Modelled from the spec: the culori parse of a six-digit hex literal
`#RRGGBB` followed by conversion to rgb yields channels `RR/255` etc.
(spec section 4.1 treats `parse` and the converters as an exact oracle). -/
noncomputable def hexColor (r g b : ℕ) : Color :=
  ⟨some ⟨some ((r : ℝ) / 255), some ((g : ℝ) / 255), some ((b : ℝ) / 255)⟩⟩

/-- sRGB inverse transfer function applied per channel, from
`getLuminance` in `contrast-checker.tsx`:
`channel <= 0.03928 ? channel / 12.92 : ((channel + 0.055) / 1.055) ^ 2.4`. -/
noncomputable def srgbLinear (channel : ℝ) : ℝ :=
  if channel ≤ 0.03928 then channel / 12.92
  else ((channel + 0.055) / 1.055) ^ (2.4 : ℝ)

/-- `getLuminance` from `contrast-checker.tsx`: a failed rgb conversion
yields 0; missing channels read as 0; otherwise the WCAG weighted sum of
the linearised channels. -/
noncomputable def getLuminance (color : Color) : ℝ :=
  match toRgb color with
  | none => 0
  | some rgb =>
      0.2126 * srgbLinear (rgb.r.getD 0)
      + 0.7152 * srgbLinear (rgb.g.getD 0)
      + 0.0722 * srgbLinear (rgb.b.getD 0)

/-- `getContrast` from `contrast-checker.tsx`:
`(lighter + 0.05) / (darker + 0.05)` where lighter/darker are the
max/min of the two luminances. -/
noncomputable def getContrast (c1 c2 : Color) : ℝ :=
  (max (getLuminance c1) (getLuminance c2) + 0.05)
    / (min (getLuminance c1) (getLuminance c2) + 0.05)

/-- The `contrast` memo of the component: the parse results of the two
text inputs feed `getContrast`, and a failed parse of either side short
circuits the whole computation to the ratio 0. -/
noncomputable def contrastValue (fg bg : Option Color) : ℝ :=
  match fg, bg with
  | some f, some b => getContrast f b
  | _, _ => 0

/-- `getRating` from `contrast-checker.tsx`:
`ratio >= threshold ? "Pass" : "Fail"`. -/
noncomputable def getRating (ratio threshold : ℝ) : String :=
  if threshold ≤ ratio then "Pass" else "Fail"

/-- The four compliance labels of the `ratings` memo. -/
structure Ratings where
  aaNormal : String
  aaLarge : String
  aaaNormal : String
  aaaLarge : String

/-- The `ratings` memo of the component: the four WCAG thresholds
applied to the current contrast value. -/
noncomputable def ratings (contrast : ℝ) : Ratings :=
  ⟨getRating contrast 4.5, getRating contrast 3,
    getRating contrast 7, getRating contrast 4.5⟩

/-- Gamut predicate for the data-model invariant of the spec: the rgb
channels of a Canonical Color lie in the unit interval (a missing
channel reads as 0 and a failed conversion imposes nothing). -/
def InSRgbGamut (c : Color) : Prop :=
  match c.rgb with
  | none => True
  | some t =>
      (0 ≤ t.r.getD 0 ∧ t.r.getD 0 ≤ 1)
      ∧ (0 ≤ t.g.getD 0 ∧ t.g.getD 0 ≤ 1)
      ∧ (0 ≤ t.b.getD 0 ∧ t.b.getD 0 ≤ 1)

/-- The color `#000000` as parsed by the library. -/
noncomputable def blackColor : Color := hexColor 0 0 0

/-- The color `#FFFFFF` as parsed by the library. -/
noncomputable def whiteColor : Color := hexColor 255 255 255

/-- The color `#777777` as parsed by the library. -/
noncomputable def color777 : Color := hexColor 119 119 119

end ContrastChecker

namespace ColorConverter

/-- Mode tags for the color records the embedding manipulates: the
modes the modelled parse fragments produce (`rgb`, `hsl`), the
canonical storage mode (`oklch`), and `unknown`, a record outside the
library registry on which every space conversion returns no result
(the esoteric corner of spec section 4.1). -/
inductive Mode where
  | rgb
  | hsl
  | oklch
  | unknown
deriving DecidableEq

/-- A culori color record, represented by its mode tag, the point it
denotes in sRGB coordinates and its optional alpha key.  The library
conversions are exact bijections between color spaces (the spec treats
the library as an oracle, section 6), so converting a record only
changes its tag, and the coordinates a space-specific record would
carry are recovered from the point on demand. -/
structure Color where
  mode : Mode
  point : ℚ × ℚ × ℚ
  alpha : Option ℚ
deriving DecidableEq

/-- Result record of `converter("rgb")`: channels plus the preserved
optional alpha key. -/
structure RgbRec where
  r : ℚ
  g : ℚ
  b : ℚ
  alpha : Option ℚ
deriving DecidableEq

/-- Result record of `converter("hsl")`; the hue of an achromatic
color is absent, which `normalizeHue` later reads as 0. -/
structure HslRec where
  h : Option ℚ
  s : ℚ
  l : ℚ
  alpha : Option ℚ
deriving DecidableEq

/-- Result record of `converter("hwb")`. -/
structure HwbRec where
  h : Option ℚ
  w : ℚ
  b : ℚ
  alpha : Option ℚ
deriving DecidableEq

/-- Result record of `converter("lab")` and `converter("oklab")`. -/
structure LabRec where
  l : ℚ
  a : ℚ
  b : ℚ
  alpha : Option ℚ
deriving DecidableEq

/-- Result record of `converter("lch")` and `converter("oklch")`. -/
structure LchRec where
  l : ℚ
  c : ℚ
  h : Option ℚ
  alpha : Option ℚ
deriving DecidableEq

/-- `clamp` from `color-converter.tsx`, always invoked at its default
bounds 0 and 1; the NaN guard of the source has no rational
counterpart. -/
def clamp (value : ℚ) : ℚ := min (max value 0) 1

/-- Truncation toward zero, the rounding inside the JS `%` operator. -/
def rTrunc (q : ℚ) : ℤ := if 0 ≤ q then ⌊q⌋ else -⌊-q⌋

/-- The JS remainder `a % b` (takes the sign of the dividend). -/
def jsRem (a b : ℚ) : ℚ := a - b * (rTrunc (a / b) : ℚ)

/-- `normalizeHue` from `color-converter.tsx`: a missing hue reads as 0
(the typeof / isFinite guard), otherwise `h % 360` shifted into the
interval from 0 to 360. -/
def normalizeHue (hue : Option ℚ) : ℚ :=
  match hue with
  | none => 0
  | some h =>
      let normalized := jsRem h 360
      if 0 ≤ normalized then normalized else normalized + 360

/-- `Math.round`: floor of the argument plus one half. -/
def jsRound (q : ℚ) : ℤ := ⌊q + 1 / 2⌋

/-- Decimal digit string of a natural number. -/
def natDecimal (n : ℕ) : List Char := Nat.toDigits 10 n

/-- Decimal digit string of an integer. -/
def intDecimal (i : ℤ) : List Char :=
  if i < 0 then '-' :: natDecimal i.natAbs else natDecimal i.natAbs

/-- Left-pad a digit string with zeros to the given width. -/
def padZeros (k : ℕ) (l : List Char) : List Char :=
  List.replicate (k - l.length) '0' ++ l

/-- `Number.prototype.toFixed`: the given number of decimal digits,
rounding ties away from zero. -/
def jsToFixed (q : ℚ) (d : ℕ) : List Char :=
  let scaled : ℤ := if 0 ≤ q then ⌊q * 10 ^ d + 1 / 2⌋ else -⌊-q * 10 ^ d + 1 / 2⌋
  let n := scaled.natAbs
  let body := natDecimal (n / 10 ^ d)
    ++ (if d = 0 then [] else '.' :: padZeros d (natDecimal (n % 10 ^ d)))
  if scaled < 0 then '-' :: body else body

/-- `trimTrailingZeros` from `color-converter.tsx`: the regex drops
trailing zeros after a decimal point, and a then-dangling point. -/
def trimTrailingZeros (value : List Char) : List Char :=
  if '.' ∈ value then
    let stripped := (value.reverse.dropWhile (fun c => c = '0')).reverse
    if stripped.getLast? = some '.' then stripped.dropLast else stripped
  else value

/-- `formatDecimal` from `color-converter.tsx`. -/
def formatDecimal (value : ℚ) (decimals : ℕ) : List Char :=
  trimTrailingZeros (jsToFixed value decimals)

/-- `formatPercent` from `color-converter.tsx`. -/
def formatPercent (value : ℚ) : List Char :=
  trimTrailingZeros (jsToFixed (clamp value * 100) 2) ++ ['%']

/-- `formatAlpha` from `color-converter.tsx`. -/
def formatAlpha (value : ℚ) : List Char :=
  formatDecimal (clamp value) 3

/-- ASCII whitespace recognised by the modelled `String.trim`. -/
def isWsChar (c : Char) : Bool := c = ' ' || c = '\t' || c = '\n' || c = '\r'

/-- `String.prototype.trim` on character lists. -/
def trimChars (l : List Char) : List Char :=
  ((l.dropWhile isWsChar).reverse.dropWhile isWsChar).reverse

/-- Literal head of the legacy hsl function syntax. -/
def hslHead : List Char := ['h', 's', 'l', '(']

/-- Literal head of the legacy rgba function syntax. -/
def rgbaHead : List Char := ['r', 'g', 'b', 'a', '(']

/-- The 22 hex digit characters and their values. -/
def hexDigitTable : List (Char × ℕ) :=
  [('0', 0), ('1', 1), ('2', 2), ('3', 3), ('4', 4), ('5', 5), ('6', 6),
    ('7', 7), ('8', 8), ('9', 9), ('a', 10), ('b', 11), ('c', 12),
    ('d', 13), ('e', 14), ('f', 15), ('A', 10), ('B', 11), ('C', 12),
    ('D', 13), ('E', 14), ('F', 15)]

/-- Value of a hex digit character, in either case. -/
def hexVal (c : Char) : Option ℕ :=
  (hexDigitTable.find? (fun p => p.1 == c)).map (fun p => p.2)

/-- Lowercase hex digit for a value below 16, as `toString(16)` emits. -/
def hexLowerChar (v : ℕ) : Char :=
  match v with
  | 0 => '0'
  | 1 => '1'
  | 2 => '2'
  | 3 => '3'
  | 4 => '4'
  | 5 => '5'
  | 6 => '6'
  | 7 => '7'
  | 8 => '8'
  | 9 => '9'
  | 10 => 'a'
  | 11 => 'b'
  | 12 => 'c'
  | 13 => 'd'
  | 14 => 'e'
  | 15 => 'f'
  | _ => 'x'

/-- Value of a decimal digit character. -/
def digVal (c : Char) : Option ℕ :=
  if c.isDigit then some (c.toNat - 48) else none

/-- Decimal digit-string value; empty input is rejected. -/
def parseNat (l : List Char) : Option ℕ :=
  if l.isEmpty then none
  else l.foldlM (fun a c => (digVal c).map (fun d => a * 10 + d)) 0

/-- Split a character list at every occurrence of a separator. -/
def splitOnChar (sep : Char) : List Char → List (List Char)
  | [] => [[]]
  | c :: rest =>
      match splitOnChar sep rest with
      | [] => if c = sep then [[], []] else [[c]]
      | h :: t => if c = sep then [] :: h :: t else (c :: h) :: t

/-- Unsigned decimal numeral (integer part, optional fraction). -/
def parseUNum (l : List Char) : Option ℚ :=
  match splitOnChar '.' l with
  | [ip] => (parseNat ip).map (fun n => (n : ℚ))
  | [ip, fp] =>
      match parseNat ip, parseNat fp with
      | some i, some f => some ((i : ℚ) + (f : ℚ) / 10 ^ fp.length)
      | _, _ => none
  | _ => none

/-- Signed decimal numeral. -/
def parseNum (l : List Char) : Option ℚ :=
  match l with
  | [] => none
  | c :: rest =>
      if c = '-' then (parseUNum rest).map (fun q => -q) else parseUNum (c :: rest)

/-- Percentage token: a numeral followed by the percent sign. -/
def parsePct (l : List Char) : Option ℚ :=
  if l.getLast? = some '%' then (parseNum l.dropLast).map (fun q => q / 100)
  else none

/-- Modelled from the spec: the library conversion from hsl coordinates
to the sRGB point (culori convertHslToRgb), used to assign a parsed
legacy hsl() string the point it denotes. -/
def hslToRgb (h0 s l : ℚ) : ℚ × ℚ × ℚ :=
  let h := normalizeHue (some h0)
  let m1 := l + s * (if l < 1 / 2 then l else 1 - l)
  let m2 := m1 - (m1 - l) * 2 * |jsRem (h / 60) 2 - 1|
  let sec := ⌊h / 60⌋
  if sec = 0 then (m1, m2, 2 * l - m1)
  else if sec = 1 then (m2, m1, 2 * l - m1)
  else if sec = 2 then (2 * l - m1, m1, m2)
  else if sec = 3 then (2 * l - m1, m2, m1)
  else if sec = 4 then (m2, 2 * l - m1, m1)
  else if sec = 5 then (m1, 2 * l - m1, m2)
  else (2 * l - m1, 2 * l - m1, 2 * l - m1)

/-- Modelled from the spec: the library conversion from the sRGB point
to hsl coordinates (culori convertRgbToHsl); an achromatic color has no
hue. -/
def rgbToHsl (p : ℚ × ℚ × ℚ) : HslRec :=
  let r := p.1
  let g := p.2.1
  let b := p.2.2
  let M := max r (max g b)
  let m := min r (min g b)
  let s := if M = m then 0 else (M - m) / (1 - |M + m - 1|)
  let l := (M + m) / 2
  let h : Option ℚ :=
    if M = m then none
    else if M = r then some (60 * ((g - b) / (M - m) + if g < b then 6 else 0))
    else if M = g then some (60 * ((b - r) / (M - m) + 2))
    else some (60 * ((r - g) / (M - m) + 4))
  ⟨h, s, l, none⟩

/-- Modelled from the spec: the library conversion from the sRGB point
to hwb coordinates (culori convertRgbToHwb). -/
def rgbToHwb (p : ℚ × ℚ × ℚ) : HwbRec :=
  ⟨(rgbToHsl p).h, min p.1 (min p.2.1 p.2.2), 1 - max p.1 (max p.2.1 p.2.2), none⟩

/-- `converter("rgb")`: fails exactly on a record outside the library
registry, otherwise reads off the sRGB point and preserves alpha. -/
def toRgb (c : Color) : Option RgbRec :=
  match c.mode with
  | .unknown => none
  | _ => some ⟨c.point.1, c.point.2.1, c.point.2.2, c.alpha⟩

/-- `converter("hsl")`. -/
def toHsl (c : Color) : Option HslRec :=
  match c.mode with
  | .unknown => none
  | _ => some ⟨(rgbToHsl c.point).h, (rgbToHsl c.point).s, (rgbToHsl c.point).l, c.alpha⟩

/-- `converter("hwb")`. -/
def toHwb (c : Color) : Option HwbRec :=
  match c.mode with
  | .unknown => none
  | _ => some ⟨(rgbToHwb c.point).h, (rgbToHwb c.point).w, (rgbToHwb c.point).b, c.alpha⟩

/-- The numeric coordinate charts of the lab family live entirely inside
the external library (spec section 6: assumed correct, not reimplemented
here); they are abstracted as arbitrary maps from the sRGB point to the
space coordinates, and every theorem below holds for all charts. -/
structure LabCharts where
  lab : ℚ × ℚ × ℚ → ℚ × ℚ × ℚ
  lch : ℚ × ℚ × ℚ → ℚ × ℚ × ℚ
  oklab : ℚ × ℚ × ℚ → ℚ × ℚ × ℚ
  oklch : ℚ × ℚ × ℚ → ℚ × ℚ × ℚ

/-- `converter("lab")`. -/
def toLab (K : LabCharts) (c : Color) : Option LabRec :=
  match c.mode with
  | .unknown => none
  | _ => some ⟨(K.lab c.point).1, (K.lab c.point).2.1, (K.lab c.point).2.2, c.alpha⟩

/-- `converter("lch")`. -/
def toLch (K : LabCharts) (c : Color) : Option LchRec :=
  match c.mode with
  | .unknown => none
  | _ => some ⟨(K.lch c.point).1, (K.lch c.point).2.1, some ((K.lch c.point).2.2), c.alpha⟩

/-- `converter("oklab")`. -/
def toOklab (K : LabCharts) (c : Color) : Option LabRec :=
  match c.mode with
  | .unknown => none
  | _ => some ⟨(K.oklab c.point).1, (K.oklab c.point).2.1, (K.oklab c.point).2.2, c.alpha⟩

/-- `converter("oklch")` at the Color level, as `parseToCanonical` and
`formatValues` use it: the conversion re-expresses the same point under
the oklch tag, preserving the alpha key. -/
def toOklch (c : Color) : Option Color :=
  match c.mode with
  | .unknown => none
  | _ => some ⟨Mode.oklch, c.point, c.alpha⟩

/-- Duck-typed reads `safeOklch.l`, `safeOklch.c`, `safeOklch.h` in
`formatValues`: the keys the record carries, per mode (the lab-family
values through the charts, hsl coordinates recovered from the point;
absent keys surface as `none` and read as 0 through the `?? 0` guards
of the source). -/
def lchFieldView (K : LabCharts) (c : Color) : Option ℚ × Option ℚ × Option ℚ :=
  match c.mode with
  | .oklch => (some (K.oklch c.point).1, some ((K.oklch c.point).2.1),
      some ((K.oklch c.point).2.2))
  | .hsl => (some (rgbToHsl c.point).l, none, (rgbToHsl c.point).h)
  | .rgb => (none, none, none)
  | .unknown => (none, none, none)

/-- The culori hex path for six-digit literals, digits in either case. -/
def parseHex (ds : List Char) : Option Color :=
  match ds with
  | [c1, c2, c3, c4, c5, c6] =>
      match hexVal c1, hexVal c2, hexVal c3, hexVal c4, hexVal c5, hexVal c6 with
      | some v1, some v2, some v3, some v4, some v5, some v6 =>
          some ⟨Mode.rgb,
            (((16 * v1 + v2 : ℕ) : ℚ) / 255,
              ((16 * v3 + v4 : ℕ) : ℚ) / 255,
              ((16 * v5 + v6 : ℕ) : ℚ) / 255), none⟩
      | _, _, _, _, _, _ => none
  | _ => none

/-- Literal-head matcher for the function syntaxes. -/
def dropPre (pre l : List Char) : Option (List Char) :=
  match pre, l with
  | [], rest => some rest
  | p :: ps, c :: cs => if p = c then dropPre ps cs else none
  | _ :: _, [] => none

/-- Function-syntax splitter: the literal head, a closing parenthesis,
and the legacy comma-separated arguments, each trimmed. -/
def fnArgs (head l : List Char) : Option (List (List Char)) :=
  match dropPre head l with
  | none => none
  | some rest =>
      if rest.getLast? = some ')' then
        some ((splitOnChar ',' rest.dropLast).map trimChars)
      else none

/-- Legacy `hsl(H, S%, L%)`. -/
def parseHslLegacy (args : List (List Char)) : Option Color :=
  match args with
  | [t1, t2, t3] =>
      match parseNum t1, parsePct t2, parsePct t3 with
      | some h, some s, some l => some ⟨Mode.hsl, hslToRgb h s l, none⟩
      | _, _, _ => none
  | _ => none

/-- Legacy `rgba(R, G, B, A)`; the alpha argument is stored as parsed,
unclamped. -/
def parseRgbaLegacy (args : List (List Char)) : Option Color :=
  match args with
  | [t1, t2, t3, t4] =>
      match parseNum t1, parseNum t2, parseNum t3, parseNum t4 with
      | some r, some g, some b, some a =>
          some ⟨Mode.rgb, (r / 255, g / 255, b / 255), some a⟩
      | _, _, _, _ => none
  | _ => none

/-- Modelled from the spec: the culori `parse` oracle, on the grammar
fragments the claims exercise (six-digit hex, legacy hsl with percent
saturation and lightness, legacy rgba); every other string is rejected
with `none`, and `parse` never clamps (spec section 3 contemplates
parse results with alpha above 1). -/
def parseColor (l : List Char) : Option Color :=
  match l with
  | [] => none
  | c :: ds =>
      if c = '#' then parseHex ds
      else
        match fnArgs hslHead (c :: ds) with
        | some args => parseHslLegacy args
        | none =>
            match fnArgs rgbaHead (c :: ds) with
            | some args => parseRgbaLegacy args
            | none => none

/-- `parseToCanonical` from `color-converter.tsx`: trim, parse, convert
to oklch; on success the stored record carries the parsed point and an
alpha defaulted to 1 and clamped into the unit interval. -/
def parseToCanonical (input : List Char) : Option Color :=
  match parseColor (trimChars input) with
  | none => none
  | some parsed =>
      match toOklch parsed with
      | none => none
      | some oklch =>
          match oklch.alpha with
          | some a => some ⟨oklch.mode, oklch.point, some (clamp a)⟩
          | none => some ⟨oklch.mode, oklch.point, some 1⟩

/-- `toString(16)` for the byte range produced by `toChannel`. -/
def natHexLower (n : ℕ) : List Char :=
  if n < 16 then [hexLowerChar n] else [hexLowerChar (n / 16), hexLowerChar (n % 16)]

/-- `String.prototype.padStart` to width 2 with zeros. -/
def padStart2 (l : List Char) : List Char :=
  List.replicate (2 - l.length) '0' ++ l

/-- `toChannel` inside `colorToHex`: round the clamped channel scaled
to the byte range, print in hex, pad to two digits, uppercase. -/
def toChannel (value : ℚ) : List Char :=
  (padStart2 (natHexLower (jsRound (clamp value * 255)).toNat)).map Char.toUpper

/-- `colorToHex` from `color-converter.tsx`: a failed rgb conversion
falls back to the black literal. -/
def colorToHex (color : Color) : List Char :=
  match toRgb color with
  | none => "#000000".toList
  | some rgb => '#' :: (toChannel rgb.r ++ toChannel rgb.g ++ toChannel rgb.b)

/-- Identifiers of the ten format fields (COLOR_FORMATS). -/
inductive FormatId where
  | hex
  | rgb
  | rgba
  | hsl
  | hsla
  | hwb
  | lab
  | lch
  | oklab
  | oklch
deriving DecidableEq

/-- The FormatValues record of the component: one display string per
format field. -/
structure FormatValues where
  hex : List Char
  rgb : List Char
  rgba : List Char
  hsl : List Char
  hsla : List Char
  hwb : List Char
  lab : List Char
  lch : List Char
  oklab : List Char
  oklch : List Char
deriving DecidableEq

/-- `formatValues` from `color-converter.tsx`: every space conversion
that returns no result is replaced by its zeroed fallback record (alpha
1 for rgb, the current alpha elsewhere); the oklch view substitutes the
color itself, whose absent keys read as zero. -/
def formatValues (K : LabCharts) (color : Color) : FormatValues :=
  let alpha := color.alpha.getD 1
  let rgb := toRgb color
  let hsl := toHsl color
  let hwb := toHwb color
  let lab := toLab K color
  let lch := toLch K color
  let oklab := toOklab K color
  let oklchC := (toOklch color).getD color
  let safeRgb : RgbRec := rgb.getD ⟨0, 0, 0, some 1⟩
  let safeHsl : HslRec := hsl.getD ⟨some 0, 0, 0, some alpha⟩
  let safeHwb : HwbRec := hwb.getD ⟨some 0, 0, 0, some alpha⟩
  let safeLab : LabRec := lab.getD ⟨0, 0, 0, some alpha⟩
  let safeLch : LchRec := lch.getD ⟨0, 0, some 0, some alpha⟩
  let safeOklab : LabRec := oklab.getD ⟨0, 0, 0, some alpha⟩
  let oklchFields := lchFieldView K oklchC
  let rgbString := "rgb(".toList
    ++ intDecimal (jsRound (clamp safeRgb.r * 255)) ++ ", ".toList
    ++ intDecimal (jsRound (clamp safeRgb.g * 255)) ++ ", ".toList
    ++ intDecimal (jsRound (clamp safeRgb.b * 255)) ++ ")".toList
  let rgbaString := "rgba(".toList
    ++ intDecimal (jsRound (clamp safeRgb.r * 255)) ++ ", ".toList
    ++ intDecimal (jsRound (clamp safeRgb.g * 255)) ++ ", ".toList
    ++ intDecimal (jsRound (clamp safeRgb.b * 255)) ++ ", ".toList
    ++ formatAlpha (safeRgb.alpha.getD alpha) ++ ")".toList
  let hslString := "hsl(".toList
    ++ formatDecimal (normalizeHue safeHsl.h) 1 ++ ", ".toList
    ++ formatPercent safeHsl.s ++ ", ".toList
    ++ formatPercent safeHsl.l ++ ")".toList
  let hslaString := "hsla(".toList
    ++ formatDecimal (normalizeHue safeHsl.h) 1 ++ ", ".toList
    ++ formatPercent safeHsl.s ++ ", ".toList
    ++ formatPercent safeHsl.l ++ ", ".toList
    ++ formatAlpha (safeHsl.alpha.getD alpha) ++ ")".toList
  let hwbString := "hwb(".toList
    ++ formatDecimal (normalizeHue safeHwb.h) 1 ++ " ".toList
    ++ formatPercent safeHwb.w ++ " ".toList
    ++ formatPercent safeHwb.b ++ " / ".toList
    ++ formatAlpha (safeHwb.alpha.getD alpha) ++ ")".toList
  let labString := "lab(".toList
    ++ formatDecimal safeLab.l 2 ++ " ".toList
    ++ formatDecimal safeLab.a 3 ++ " ".toList
    ++ formatDecimal safeLab.b 3 ++ " / ".toList
    ++ formatAlpha (safeLab.alpha.getD alpha) ++ ")".toList
  let lchString := "lch(".toList
    ++ formatDecimal safeLch.l 2 ++ " ".toList
    ++ formatDecimal safeLch.c 3 ++ " ".toList
    ++ formatDecimal (normalizeHue safeLch.h) 1 ++ " / ".toList
    ++ formatAlpha (safeLch.alpha.getD alpha) ++ ")".toList
  let oklabString := "oklab(".toList
    ++ formatDecimal safeOklab.l 3 ++ " ".toList
    ++ formatDecimal safeOklab.a 4 ++ " ".toList
    ++ formatDecimal safeOklab.b 4 ++ " / ".toList
    ++ formatAlpha (safeOklab.alpha.getD alpha) ++ ")".toList
  let oklchString := "oklch(".toList
    ++ formatDecimal (oklchFields.1.getD 0) 3 ++ " ".toList
    ++ formatDecimal (oklchFields.2.1.getD 0) 4 ++ " ".toList
    ++ formatDecimal (normalizeHue oklchFields.2.2) 1 ++ " / ".toList
    ++ formatAlpha (oklchC.alpha.getD alpha) ++ ")".toList
  ⟨colorToHex color, rgbString, rgbaString, hslString, hslaString,
    hwbString, labString, lchString, oklabString, oklchString⟩

/-- The component state: the shared Canonical Color, the per-field
display strings, and the per-field error map. -/
structure ConverterState where
  color : Color
  inputValues : FormatValues
  inputErrors : FormatId → Option (List Char)

/-- `applyInput` from `color-converter.tsx` together with the `[color]`
effect it triggers (the effect recomputes every field string from the
new color and clears every error after a successful commit); a failed
parse records the per-field message and changes nothing else, and the
effect does not rerun since the color is unchanged. -/
def applyInput (K : LabCharts) (format : FormatId) (raw : List Char)
    (s : ConverterState) : ConverterState :=
  match parseToCanonical raw with
  | some parsed => ⟨parsed, formatValues K parsed, fun _ => none⟩
  | none =>
      ⟨s.color, s.inputValues,
        fun g => if g = format then some "Unrecognized color value.".toList
          else s.inputErrors g⟩

/-- FALLBACK_COLOR of the source is the swatch oklch(0.65 0.16 264);
its sRGB point is irrational and the constant is never consulted (the
default swatch parses), so the point is recorded as the origin. -/
def FALLBACK_COLOR : Color := ⟨Mode.oklch, (0, 0, 0), some 1⟩

/-- INITIAL_COLOR: the parsed default swatch. -/
def INITIAL_COLOR : Color := (parseToCanonical "#6366f1".toList).getD FALLBACK_COLOR

/-- The initial component state: initial color, its format strings, no
errors. -/
def initialState (K : LabCharts) : ConverterState :=
  ⟨INITIAL_COLOR, formatValues K INITIAL_COLOR, fun _ => none⟩

/-- A trivial instantiation of the abstract lab-family charts, used to
instantiate universally quantified theorems on concrete inputs. -/
def zeroCharts : LabCharts :=
  ⟨fun _ => (0, 0, 0), fun _ => (0, 0, 0), fun _ => (0, 0, 0), fun _ => (0, 0, 0)⟩

/-- A record outside the library registry: every space conversion
returns no result on it. -/
def unknownColor : Color := ⟨Mode.unknown, (0, 0, 0), none⟩

end ColorConverter

namespace ContrastChecker

theorem srgbLinear_nonneg {x : ℝ} (h0 : 0 ≤ x) : 0 ≤ srgbLinear x := by
  unfold srgbLinear
  split
  · positivity
  · exact Real.rpow_nonneg (by positivity) _

theorem srgbLinear_le_one {x : ℝ} (h0 : 0 ≤ x) (h1 : x ≤ 1) : srgbLinear x ≤ 1 := by
  unfold srgbLinear
  split
  · rw [div_le_one (by norm_num)]
    linarith
  · apply Real.rpow_le_one (by positivity)
    · rw [div_le_one (by norm_num)]
      linarith
    · norm_num

theorem getLuminance_nonneg (c : Color) (h : InSRgbGamut c) : 0 ≤ getLuminance c := by
  unfold getLuminance toRgb
  unfold InSRgbGamut at h
  rcases c with ⟨_ | t⟩
  · norm_num
  · obtain ⟨⟨hr0, _⟩, ⟨hg0, _⟩, ⟨hb0, _⟩⟩ := h
    have h1 := srgbLinear_nonneg hr0
    have h2 := srgbLinear_nonneg hg0
    have h3 := srgbLinear_nonneg hb0
    simp only
    linarith

theorem getLuminance_le_one (c : Color) (h : InSRgbGamut c) : getLuminance c ≤ 1 := by
  unfold getLuminance toRgb
  unfold InSRgbGamut at h
  rcases c with ⟨_ | t⟩
  · norm_num
  · obtain ⟨⟨hr0, hr1⟩, ⟨hg0, hg1⟩, ⟨hb0, hb1⟩⟩ := h
    have h1 := srgbLinear_le_one hr0 hr1
    have h2 := srgbLinear_le_one hg0 hg1
    have h3 := srgbLinear_le_one hb0 hb1
    simp only
    linarith

theorem contrast_formula_bounds {la lb : ℝ} (ha0 : 0 ≤ la) (ha1 : la ≤ 1)
    (hb0 : 0 ≤ lb) (hb1 : lb ≤ 1) :
    1 ≤ (max la lb + 0.05) / (min la lb + 0.05)
      ∧ (max la lb + 0.05) / (min la lb + 0.05) ≤ 21 := by
  have hmin0 : 0 ≤ min la lb := le_min ha0 hb0
  have hmax1 : max la lb ≤ 1 := max_le ha1 hb1
  have hmm : min la lb ≤ max la lb := min_le_max
  have hpos : (0 : ℝ) < min la lb + 0.05 := by linarith
  constructor
  · rw [one_le_div hpos]
    linarith
  · rw [div_le_iff₀ hpos]
    linarith

/-- C1: for every pair of Canonical Colors (rgb channels in the unit
interval, as the data model requires), the contrast ratio computed by
`getContrast` lies in the closed interval from 1 to 21. -/
theorem contrast_mem_unit_range (fg bg : Color)
    (hf : InSRgbGamut fg) (hb : InSRgbGamut bg) :
    1 ≤ getContrast fg bg ∧ getContrast fg bg ≤ 21 := by
  unfold getContrast
  exact contrast_formula_bounds (getLuminance_nonneg fg hf) (getLuminance_le_one fg hf)
    (getLuminance_nonneg bg hb) (getLuminance_le_one bg hb)

/-- C1 witness: the gamut hypotheses hold of the parsed `#000000` and
`#FFFFFF` and the contrast of that pair lies in the interval. -/
theorem contrast_mem_unit_range_witness :
    InSRgbGamut blackColor ∧ InSRgbGamut whiteColor
      ∧ (1 ≤ getContrast blackColor whiteColor
          ∧ getContrast blackColor whiteColor ≤ 21) := by
  have h1 : InSRgbGamut blackColor := by
    unfold InSRgbGamut blackColor hexColor
    norm_num
  have h2 : InSRgbGamut whiteColor := by
    unfold InSRgbGamut whiteColor hexColor
    norm_num
  exact ⟨h1, h2, contrast_mem_unit_range blackColor whiteColor h1 h2⟩

/-- C2: the contrast ratio is symmetric in its two colors, both at the
level of `getContrast` and at the level of the displayed `contrast`
value, so the swap operation (which exchanges the two inputs) leaves
the computed ratio unchanged. -/
theorem contrast_symm :
    (∀ c1 c2 : Color, getContrast c1 c2 = getContrast c2 c1)
      ∧ ∀ fg bg : Option Color, contrastValue fg bg = contrastValue bg fg := by
  have hg : ∀ c1 c2 : Color, getContrast c1 c2 = getContrast c2 c1 := by
    intro c1 c2
    unfold getContrast
    rw [max_comm, min_comm]
  refine ⟨hg, ?_⟩
  intro fg bg
  rcases fg with _ | f <;> rcases bg with _ | b <;> simp [contrastValue, hg]

theorem getRating_pass_iff (r t : ℝ) : getRating r t = "Pass" ↔ t ≤ r := by
  unfold getRating
  split
  · simp_all
  · simp_all

/-- C3: the compliance evaluator passes exactly at ratio greater than or
equal to the threshold (4.5 AA normal, 3 AA large, 7 AAA normal, 4.5
AAA large); `ratings` is by construction a pure function of the ratio. -/
theorem ratings_pass_iff (r : ℝ) :
    ((ratings r).aaNormal = "Pass" ↔ 4.5 ≤ r)
      ∧ ((ratings r).aaLarge = "Pass" ↔ 3 ≤ r)
      ∧ ((ratings r).aaaNormal = "Pass" ↔ 7 ≤ r)
      ∧ ((ratings r).aaaLarge = "Pass" ↔ 4.5 ≤ r) := by
  unfold ratings
  exact ⟨getRating_pass_iff r 4.5, getRating_pass_iff r 3,
    getRating_pass_iff r 7, getRating_pass_iff r 4.5⟩

/-- C3 witness: at the boundary ratio 4.5 the AA-normal label is
exactly "Pass" (greater than or equal, not strictly greater). -/
theorem ratings_pass_iff_witness : (ratings 4.5).aaNormal = "Pass" := by
  exact (ratings_pass_iff 4.5).1.mpr (by norm_num)

/-- C10: whenever either text fails to parse, the displayed contrast
ratio is 0 (below the documented lower bound 1) and all four WCAG
labels are "Fail". -/
theorem unparseable_contrast_zero (fg bg : Option Color)
    (h : fg = none ∨ bg = none) :
    contrastValue fg bg = 0 ∧ contrastValue fg bg < 1
      ∧ ratings (contrastValue fg bg) = ⟨"Fail", "Fail", "Fail", "Fail"⟩ := by
  have h0 : contrastValue fg bg = 0 := by
    rcases h with h | h <;> subst h
    · rcases bg with _ | b <;> rfl
    · rcases fg with _ | f <;> rfl
  refine ⟨h0, by rw [h0]; norm_num, ?_⟩
  rw [h0]
  unfold ratings getRating
  rw [if_neg (by norm_num), if_neg (by norm_num), if_neg (by norm_num)]

theorem srgbLinear_777_pow5 :
    srgbLinear ((119 : ℝ) / 255) ^ (5 : ℕ) = ((313 : ℝ) / 633) ^ (12 : ℕ) := by
  have hx : (0 : ℝ) ≤ 313 / 633 := by norm_num
  have hb : ¬ ((119 : ℝ) / 255 ≤ 0.03928) := by norm_num
  have hbase : ((119 : ℝ) / 255 + 0.055) / 1.055 = 313 / 633 := by norm_num
  unfold srgbLinear
  rw [if_neg hb, hbase, ← Real.rpow_natCast (((313 : ℝ) / 633) ^ (2.4 : ℝ)) 5,
    ← Real.rpow_mul hx, ← Real.rpow_natCast ((313 : ℝ) / 633) 12]
  congr 1
  norm_num

theorem srgbLinear_777_bounds :
    0.1844 ≤ srgbLinear ((119 : ℝ) / 255) ∧ srgbLinear ((119 : ℝ) / 255) ≤ 0.1846 := by
  have ht0 : 0 ≤ srgbLinear ((119 : ℝ) / 255) := srgbLinear_nonneg (by norm_num)
  have hlow : (0.1844 : ℝ) ^ (5 : ℕ) ≤ srgbLinear ((119 : ℝ) / 255) ^ (5 : ℕ) := by
    rw [srgbLinear_777_pow5]
    norm_num
  have hhigh : srgbLinear ((119 : ℝ) / 255) ^ (5 : ℕ) ≤ (0.1846 : ℝ) ^ (5 : ℕ) := by
    rw [srgbLinear_777_pow5]
    norm_num
  exact ⟨le_of_pow_le_pow_left₀ (by norm_num) ht0 hlow,
    le_of_pow_le_pow_left₀ (by norm_num) (by norm_num) hhigh⟩

theorem getLuminance_777 :
    getLuminance color777 = srgbLinear ((119 : ℝ) / 255) := by
  simp only [getLuminance, toRgb, color777, hexColor, Option.getD_some]
  ring_nf

theorem srgbLinear_one : srgbLinear 1 = 1 := by
  unfold srgbLinear
  rw [if_neg (by norm_num), show ((1 : ℝ) + 0.055) / 1.055 = 1 by norm_num, Real.one_rpow]

theorem getLuminance_white : getLuminance whiteColor = 1 := by
  have h : ((255 : ℕ) : ℝ) / 255 = 1 := by norm_num
  simp only [getLuminance, toRgb, whiteColor, hexColor, Option.getD_some, h, srgbLinear_one]
  norm_num

theorem contrast_777_white_bounds :
    4.47 < getContrast color777 whiteColor ∧ getContrast color777 whiteColor < 4.49 := by
  obtain ⟨hl, hu⟩ := srgbLinear_777_bounds
  unfold getContrast
  rw [getLuminance_777, getLuminance_white]
  set s := srgbLinear ((119 : ℝ) / 255) with hs
  rw [max_eq_right (by linarith), min_eq_left (by linarith)]
  have hpos : (0 : ℝ) < s + 0.05 := by linarith
  constructor
  · rw [lt_div_iff₀ hpos]
    linarith
  · rw [div_lt_iff₀ hpos]
    linarith

/-- C6 counterexample: the contrast ratio of foreground `#777777`
against background `#FFFFFF` is not approximately 3.54: it differs from
3.54 by more than 0.5. -/
theorem contrast_777_not_354 :
    ¬ (|getContrast color777 whiteColor - 3.54| ≤ 0.5) := by
  intro habs
  rw [abs_le] at habs
  have h := contrast_777_white_bounds.1
  linarith [habs.2]

/-- C6 amended: for foreground `#777777` and background `#FFFFFF` the
computed contrast ratio is approximately 4.48 (strictly between 4.47
and 4.49), and the four compliance results are AA-normal "Fail",
AA-large "Pass", AAA-normal "Fail", AAA-large "Fail". -/
theorem contrast_777_white_spec :
    (4.47 < getContrast color777 whiteColor ∧ getContrast color777 whiteColor < 4.49)
      ∧ ratings (getContrast color777 whiteColor)
          = ⟨"Fail", "Pass", "Fail", "Fail"⟩ := by
  obtain ⟨h1, h2⟩ := contrast_777_white_bounds
  refine ⟨⟨h1, h2⟩, ?_⟩
  unfold ratings getRating
  rw [if_neg (by linarith), if_pos (by linarith), if_neg (by linarith)]

/-- C10 witness: a failed foreground parse against a parsed `#FFFFFF`
background yields ratio 0 and four "Fail" labels. -/
theorem unparseable_contrast_zero_witness :
    contrastValue none (some whiteColor) = 0
      ∧ ratings (contrastValue none (some whiteColor))
          = ⟨"Fail", "Fail", "Fail", "Fail"⟩ := by
  have h := unparseable_contrast_zero none (some whiteColor) (Or.inl rfl)
  exact ⟨h.1, h.2.2⟩

end ContrastChecker

namespace ColorConverter

set_option maxHeartbeats 1000000

theorem digVal_0 : digVal '0' = some 0 := by decide

theorem digVal_1 : digVal '1' = some 1 := by decide

theorem digVal_2 : digVal '2' = some 2 := by decide

theorem digVal_3 : digVal '3' = some 3 := by decide

theorem digVal_4 : digVal '4' = some 4 := by decide

theorem digVal_5 : digVal '5' = some 5 := by decide

theorem digVal_6 : digVal '6' = some 6 := by decide

theorem digVal_7 : digVal '7' = some 7 := by decide

theorem digVal_8 : digVal '8' = some 8 := by decide

theorem digVal_9 : digVal '9' = some 9 := by decide

theorem jsRound_natCast (n : ℕ) : jsRound ((n : ℚ)) = (n : ℤ) := by
  unfold jsRound
  rw [Int.floor_eq_iff]
  constructor
  · push_cast
    linarith
  · push_cast
    linarith

theorem clamp_nonneg (q : ℚ) : 0 ≤ clamp q :=
  le_min (le_max_right q 0) (by norm_num)

theorem clamp_le_one (q : ℚ) : clamp q ≤ 1 := min_le_right _ _

theorem hexVal_facts (c : Char) (v : ℕ) (h : hexVal c = some v) :
    v < 16 ∧ isWsChar c = false ∧ Char.toUpper c = Char.toUpper (hexLowerChar v) := by
  unfold hexVal at h
  cases hfind : hexDigitTable.find? (fun p => p.1 == c) with
  | none =>
      rw [hfind] at h
      simp at h
  | some p =>
      rw [hfind] at h
      simp only [Option.map_some', Option.some.injEq] at h
      have hmem := List.mem_of_find?_eq_some hfind
      have hpred := List.find?_some hfind
      rw [beq_iff_eq] at hpred
      subst hpred
      subst h
      simp only [hexDigitTable] at hmem
      fin_cases hmem <;> decide

theorem toChannel_byte (v1 v2 : ℕ) (h1 : v1 < 16) (h2 : v2 < 16) :
    toChannel (((16 * v1 + v2 : ℕ) : ℚ) / 255)
      = [Char.toUpper (hexLowerChar v1), Char.toUpper (hexLowerChar v2)] := by
  have hle : (16 * v1 + v2) ≤ 255 := by omega
  have hq0 : (0 : ℚ) ≤ ((16 * v1 + v2 : ℕ) : ℚ) / 255 := by positivity
  have hq1 : ((16 * v1 + v2 : ℕ) : ℚ) / 255 ≤ 1 := by
    rw [div_le_one (by norm_num)]
    exact_mod_cast hle
  have hclamp : clamp (((16 * v1 + v2 : ℕ) : ℚ) / 255) = ((16 * v1 + v2 : ℕ) : ℚ) / 255 := by
    unfold clamp
    rw [max_eq_left hq0, min_eq_left hq1]
  have hmul : ((16 * v1 + v2 : ℕ) : ℚ) / 255 * 255 = ((16 * v1 + v2 : ℕ) : ℚ) := by
    field_simp
  have hNat : (jsRound (clamp (((16 * v1 + v2 : ℕ) : ℚ) / 255) * 255)).toNat = 16 * v1 + v2 := by
    rw [hclamp, hmul, jsRound_natCast]
    omega
  unfold toChannel
  rw [hNat]
  rcases Nat.eq_zero_or_pos v1 with hz | hpos
  · subst hz
    have hv2 : 16 * 0 + v2 = v2 := by omega
    rw [hv2]
    unfold natHexLower padStart2
    rw [if_pos h2]
    simp [hexLowerChar, List.replicate]
  · have hge : ¬ (16 * v1 + v2 < 16) := by omega
    have hdiv : (16 * v1 + v2) / 16 = v1 := by omega
    have hmod : (16 * v1 + v2) % 16 = v2 := by omega
    unfold natHexLower padStart2
    rw [if_neg hge, hdiv, hmod]
    simp

/-- C4: for every valid six-digit hex string, parsing it to the
canonical oklch color and formatting that color back as hex yields the
uppercase form of the original string (the stored alpha is 1). -/
theorem hex_round_trip (c1 c2 c3 c4 c5 c6 : Char)
    (h1 : (hexVal c1).isSome = true) (h2 : (hexVal c2).isSome = true)
    (h3 : (hexVal c3).isSome = true) (h4 : (hexVal c4).isSome = true)
    (h5 : (hexVal c5).isSome = true) (h6 : (hexVal c6).isSome = true) :
    (parseToCanonical ['#', c1, c2, c3, c4, c5, c6]).map colorToHex
      = some (['#', c1, c2, c3, c4, c5, c6].map Char.toUpper) := by
  obtain ⟨v1, hv1⟩ := Option.isSome_iff_exists.mp h1
  obtain ⟨v2, hv2⟩ := Option.isSome_iff_exists.mp h2
  obtain ⟨v3, hv3⟩ := Option.isSome_iff_exists.mp h3
  obtain ⟨v4, hv4⟩ := Option.isSome_iff_exists.mp h4
  obtain ⟨v5, hv5⟩ := Option.isSome_iff_exists.mp h5
  obtain ⟨v6, hv6⟩ := Option.isSome_iff_exists.mp h6
  obtain ⟨hlt1, hw1, hup1⟩ := hexVal_facts c1 v1 hv1
  obtain ⟨hlt2, hw2, hup2⟩ := hexVal_facts c2 v2 hv2
  obtain ⟨hlt3, hw3, hup3⟩ := hexVal_facts c3 v3 hv3
  obtain ⟨hlt4, hw4, hup4⟩ := hexVal_facts c4 v4 hv4
  obtain ⟨hlt5, hw5, hup5⟩ := hexVal_facts c5 v5 hv5
  obtain ⟨hlt6, hw6, hup6⟩ := hexVal_facts c6 v6 hv6
  have hwsharp : isWsChar '#' = false := by decide
  have htrim : trimChars ['#', c1, c2, c3, c4, c5, c6] = ['#', c1, c2, c3, c4, c5, c6] := by
    simp [trimChars, List.dropWhile, hwsharp, hw1, hw2, hw3, hw4, hw5, hw6]
  have hparse : parseToCanonical ['#', c1, c2, c3, c4, c5, c6]
      = some ⟨Mode.oklch,
          (((16 * v1 + v2 : ℕ) : ℚ) / 255, ((16 * v3 + v4 : ℕ) : ℚ) / 255,
            ((16 * v5 + v6 : ℕ) : ℚ) / 255), some 1⟩ := by
    simp [parseToCanonical, htrim, parseColor, parseHex, hv1, hv2, hv3, hv4, hv5, hv6,
      toOklch]
  rw [hparse]
  have hupsharp : Char.toUpper '#' = '#' := by decide
  simp only [Option.map_some']
  simp only [colorToHex, toRgb, List.map_cons, List.map_nil, hupsharp]
  rw [toChannel_byte v1 v2 hlt1 hlt2, toChannel_byte v3 v4 hlt3 hlt4,
    toChannel_byte v5 v6 hlt5 hlt6]
  simp [hup1, hup2, hup3, hup4, hup5, hup6]

/-- C4 witness: the default swatch string round-trips: parsing
"#6366f1" and formatting back as hex yields "#6366F1", the uppercase
form of the input. -/
theorem hex_round_trip_witness :
    (hexVal 'f').isSome = true
      ∧ (parseToCanonical ['#', '6', '3', '6', '6', 'f', '1']).map colorToHex
          = some (['#', '6', '3', '6', '6', 'f', '1'].map Char.toUpper)
      ∧ ['#', '6', '3', '6', '6', 'f', '1'].map Char.toUpper
          = ['#', '6', '3', '6', '6', 'F', '1'] := by
  refine ⟨by decide, ?_, by decide⟩
  exact hex_round_trip '6' '3' '6' '6' 'f' '1' (by decide) (by decide) (by decide)
    (by decide) (by decide) (by decide)

end ColorConverter

namespace ColorConverter

set_option maxHeartbeats 1000000

theorem hsl210_parse :
    parseToCanonical "hsl(210, 50%, 50%)".toList
      = some ⟨Mode.oklch, (1 / 4, 1 / 2, 3 / 4), some 1⟩ := by
  norm_num +decide [parseToCanonical, trimChars, isWsChar, parseColor, fnArgs,
    dropPre, hslHead, rgbaHead, splitOnChar, parseHslLegacy, parseNum, parseUNum,
    parseNat, parsePct, hslToRgb, normalizeHue, jsRem, rTrunc, toOklch,
    clamp, List.foldlM, abs_of_nonneg, abs_of_nonpos,
    digVal_0, digVal_1, digVal_2, digVal_5]

theorem hsl210_hex :
    (formatValues zeroCharts ⟨Mode.oklch, (1 / 4, 1 / 2, 3 / 4), some 1⟩).hex
      = "#4080BF".toList := by
  norm_num +decide [formatValues, colorToHex, toRgb, toChannel, clamp, jsRound,
    natHexLower, hexLowerChar, padStart2]

theorem rgba2_parse :
    parseColor (trimChars "rgba(0, 0, 0, 2)".toList)
      = some ⟨Mode.rgb, (0, 0, 0), some 2⟩ := by
  norm_num +decide [trimChars, isWsChar, parseColor, fnArgs,
    dropPre, hslHead, rgbaHead, splitOnChar, parseRgbaLegacy, parseHslLegacy,
    parseNum, parseUNum, parseNat, parsePct, List.foldlM, digVal_0, digVal_2]

theorem rgba2_canonical :
    parseToCanonical "rgba(0, 0, 0, 2)".toList
      = some ⟨Mode.oklch, (0, 0, 0), some 1⟩ := by
  norm_num +decide [parseToCanonical, trimChars, isWsChar, parseColor, fnArgs,
    dropPre, hslHead, rgbaHead, splitOnChar, parseRgbaLegacy, parseHslLegacy,
    parseNum, parseUNum, parseNat, parsePct, List.foldlM, digVal_0, digVal_2,
    toOklch, clamp]

/-- C5 counterexample: on the committed string "hello" the recorded
field error is "Unrecognized color value." with a trailing period, so
the message is not the bare "Unrecognized color value" of the claim. -/
theorem apply_input_message_counterexample :
    parseToCanonical "hello".toList = none
      ∧ (applyInput zeroCharts FormatId.hex "hello".toList
            (initialState zeroCharts)).inputErrors FormatId.hex
          = some "Unrecognized color value.".toList
      ∧ (applyInput zeroCharts FormatId.hex "hello".toList
            (initialState zeroCharts)).inputErrors FormatId.hex
          ≠ some "Unrecognized color value".toList := by
  refine ⟨by decide, by decide, by decide⟩

/-- C5 (amended): committing a string in any format field never throws
(the embedded parse is total, returning an optional color); if the
string parses, the Canonical Color is replaced by the parse result and
the field errors are cleared; if it does not parse, the field-local
message "Unrecognized color value." (with a trailing period) is
recorded for that field only and the Canonical Color is unchanged. -/
theorem apply_input_error_handling (K : LabCharts) (s : ConverterState)
    (f : FormatId) (raw : List Char) :
    (∀ c, parseToCanonical raw = some c →
        (applyInput K f raw s).color = c ∧ (applyInput K f raw s).inputErrors f = none)
      ∧ (parseToCanonical raw = none →
          (applyInput K f raw s).color = s.color
            ∧ (applyInput K f raw s).inputErrors f
                = some "Unrecognized color value.".toList
            ∧ ∀ g, g ≠ f → (applyInput K f raw s).inputErrors g = s.inputErrors g) := by
  constructor
  · intro c hc
    simp [applyInput, hc]
  · intro hn
    refine ⟨by simp [applyInput, hn], by simp [applyInput, hn], ?_⟩
    intro g hg
    simp [applyInput, hn, hg]

/-- C5 witness: committing "hello" in the hex field records the
trailing-period message and leaves the Canonical Color unchanged. -/
theorem apply_input_error_handling_witness :
    parseToCanonical "hello".toList = none
      ∧ (applyInput zeroCharts FormatId.hex "hello".toList
            (initialState zeroCharts)).color = (initialState zeroCharts).color
      ∧ (applyInput zeroCharts FormatId.hex "hello".toList
            (initialState zeroCharts)).inputErrors FormatId.hex
          = some "Unrecognized color value.".toList := by
  have hn : parseToCanonical "hello".toList = none := by decide
  have h := (apply_input_error_handling zeroCharts (initialState zeroCharts)
    FormatId.hex "hello".toList).2 hn
  exact ⟨hn, h.1, h.2.1⟩

theorem parseHex_mode (ds : List Char) (p : Color) (h : parseHex ds = some p) :
    p.mode = Mode.rgb := by
  unfold parseHex at h
  split at h
  · split at h
    · cases h
      rfl
    · cases h
  · cases h

theorem parseHslLegacy_mode (args : List (List Char)) (p : Color)
    (h : parseHslLegacy args = some p) : p.mode = Mode.hsl := by
  unfold parseHslLegacy at h
  split at h
  · split at h
    · cases h
      rfl
    · cases h
  · cases h

theorem parseRgbaLegacy_mode (args : List (List Char)) (p : Color)
    (h : parseRgbaLegacy args = some p) : p.mode = Mode.rgb := by
  unfold parseRgbaLegacy at h
  split at h
  · split at h
    · cases h
      rfl
    · cases h
  · cases h

theorem parseColor_mode (l : List Char) (p : Color) (h : parseColor l = some p) :
    p.mode ≠ Mode.unknown := by
  unfold parseColor at h
  split at h
  · cases h
  · split at h
    · rw [parseHex_mode _ _ h]
      intro hc
      cases hc
    · split at h
      · rw [parseHslLegacy_mode _ _ h]
        intro hc
        cases hc
      · split at h
        · rw [parseRgbaLegacy_mode _ _ h]
          intro hc
          cases hc
        · cases h

/-- C7 (amended): on every successful parse the stored Canonical Color
carries the parsed channel coordinates verbatim (unclamped); the alpha
channel alone is clamped into the unit interval already at
parse-commit time, before storage; display formatting clamps again
before rendering. -/
theorem parse_storage_clamp_spec (raw : List Char) (p : Color)
    (h : parseColor (trimChars raw) = some p) :
    parseToCanonical raw = some ⟨Mode.oklch, p.point, some (clamp (p.alpha.getD 1))⟩
      ∧ 0 ≤ clamp (p.alpha.getD 1) ∧ clamp (p.alpha.getD 1) ≤ 1 := by
  have hm := parseColor_mode _ _ h
  refine ⟨?_, clamp_nonneg _, clamp_le_one _⟩
  unfold parseToCanonical
  rw [h]
  rcases p with ⟨m, pt, a⟩
  cases m
  · cases a
    · norm_num [toOklch, clamp]
    · rfl
  · cases a
    · norm_num [toOklch, clamp]
    · rfl
  · cases a
    · norm_num [toOklch, clamp]
    · rfl
  · exact absurd rfl hm

/-- C7 counterexample: the committed string "rgba(0, 0, 0, 2)" parses
with alpha 2, but the stored Canonical Color carries alpha 1: the
alpha was clamped before storage, so the stored color does not carry
the unclamped parsed values. -/
theorem alpha_clamped_before_storage :
    parseColor (trimChars "rgba(0, 0, 0, 2)".toList)
        = some ⟨Mode.rgb, (0, 0, 0), some 2⟩
      ∧ (parseToCanonical "rgba(0, 0, 0, 2)".toList).map Color.alpha = some (some 1)
      ∧ (parseToCanonical "rgba(0, 0, 0, 2)".toList).map Color.alpha ≠ some (some 2) := by
  refine ⟨rgba2_parse, ?_, ?_⟩
  · rw [rgba2_canonical]
    rfl
  · rw [rgba2_canonical]
    intro hc
    simp at hc

/-- C7 witness: at the rgba input with alpha 2, the amended statement
instantiates: the stored point is the parsed origin and the stored
alpha is the clamp of the parsed 2. -/
theorem parse_storage_clamp_spec_witness :
    parseColor (trimChars "rgba(0, 0, 0, 2)".toList)
        = some ⟨Mode.rgb, (0, 0, 0), some 2⟩
      ∧ parseToCanonical "rgba(0, 0, 0, 2)".toList
          = some ⟨Mode.oklch, (0, 0, 0), some (clamp ((some (2 : ℚ)).getD 1))⟩ := by
  refine ⟨rgba2_parse, ?_⟩
  exact (parse_storage_clamp_spec "rgba(0, 0, 0, 2)".toList
    ⟨Mode.rgb, (0, 0, 0), some 2⟩ rgba2_parse).1

/-- C8: after every successful commit in any one field, the whole
inputValues record is recomputed from the new Canonical Color by the
color effect, overwriting any uncommitted draft in every field. -/
theorem commit_recomputes_all_fields (K : LabCharts) (s : ConverterState)
    (f : FormatId) (raw : List Char) (c : Color)
    (h : parseToCanonical raw = some c) :
    (applyInput K f raw s).inputValues = formatValues K c := by
  simp [applyInput, h]

/-- C8 witness: committing "hsl(210, 50%, 50%)" in the hsl field
updates the hex field to "#4080BF", the equivalent RGB hex, with no
further action. -/
theorem commit_recomputes_all_fields_witness :
    parseToCanonical "hsl(210, 50%, 50%)".toList
        = some ⟨Mode.oklch, (1 / 4, 1 / 2, 3 / 4), some 1⟩
      ∧ (applyInput zeroCharts FormatId.hsl "hsl(210, 50%, 50%)".toList
            (initialState zeroCharts)).inputValues.hex = "#4080BF".toList := by
  refine ⟨hsl210_parse, ?_⟩
  rw [commit_recomputes_all_fields zeroCharts (initialState zeroCharts) FormatId.hsl
    "hsl(210, 50%, 50%)".toList ⟨Mode.oklch, (1 / 4, 1 / 2, 3 / 4), some 1⟩ hsl210_parse]
  exact hsl210_hex

end ColorConverter

namespace ColorConverter

set_option maxHeartbeats 1000000

theorem evFd1 : formatDecimal (normalizeHue (some 0)) 1 = ['0'] := by
  norm_num +decide [formatDecimal, normalizeHue, jsRem, rTrunc, jsToFixed,
    trimTrailingZeros, natDecimal, padZeros, Nat.toDigits, Nat.toDigitsCore]

theorem evFd0_1 : formatDecimal 0 1 = ['0'] := by
  norm_num +decide [formatDecimal, jsToFixed, trimTrailingZeros, natDecimal,
    padZeros, Nat.toDigits, Nat.toDigitsCore]

theorem evFd0_2 : formatDecimal 0 2 = ['0'] := by
  norm_num +decide [formatDecimal, jsToFixed, trimTrailingZeros, natDecimal,
    padZeros, Nat.toDigits, Nat.toDigitsCore]

theorem evFd0_3 : formatDecimal 0 3 = ['0'] := by
  norm_num +decide [formatDecimal, jsToFixed, trimTrailingZeros, natDecimal,
    padZeros, Nat.toDigits, Nat.toDigitsCore]

theorem evFd0_4 : formatDecimal 0 4 = ['0'] := by
  norm_num +decide [formatDecimal, jsToFixed, trimTrailingZeros, natDecimal,
    padZeros, Nat.toDigits, Nat.toDigitsCore]

theorem evFp0 : formatPercent 0 = ['0', '%'] := by
  norm_num +decide [formatPercent, clamp, jsToFixed, trimTrailingZeros, natDecimal,
    padZeros, Nat.toDigits, Nat.toDigitsCore]

theorem evA1 : formatAlpha 1 = ['1'] := by
  norm_num +decide [formatAlpha, formatDecimal, clamp, jsToFixed, trimTrailingZeros,
    natDecimal, padZeros, Nat.toDigits, Nat.toDigitsCore]

theorem evCh0 : intDecimal (jsRound (clamp 0 * 255)) = ['0'] := by
  norm_num +decide [intDecimal, jsRound, clamp, natDecimal, Nat.toDigits,
    Nat.toDigitsCore]

theorem getD_getD_one (a : Option ℚ) :
    Option.getD a (Option.getD a 1) = Option.getD a 1 := by
  cases a <;> rfl

/-- C9: whenever a space conversion returns no result, `formatValues`
substitutes the zeroed fallback structure for that space (alpha 1 for
the rgb record, the current alpha elsewhere) instead of propagating
any failure, so the field still receives a renderable string; the hex
helper falls back to the black literal, and the oklch view falls back
to the color itself, whose absent coordinate keys read as zero. -/
theorem conversion_fallback_zeroed (K : LabCharts) (c : Color) :
    (toRgb c = none →
        (formatValues K c).hex = "#000000".toList
          ∧ (formatValues K c).rgb = "rgb(0, 0, 0)".toList
          ∧ (formatValues K c).rgba = "rgba(0, 0, 0, 1)".toList)
      ∧ (toHsl c = none →
          (formatValues K c).hsl = "hsl(0, 0%, 0%)".toList
            ∧ (formatValues K c).hsla
                = "hsla(0, 0%, 0%, ".toList ++ formatAlpha (c.alpha.getD 1) ++ [')'])
      ∧ (toHwb c = none →
          (formatValues K c).hwb
            = "hwb(0 0% 0% / ".toList ++ formatAlpha (c.alpha.getD 1) ++ [')'])
      ∧ (toLab K c = none →
          (formatValues K c).lab
            = "lab(0 0 0 / ".toList ++ formatAlpha (c.alpha.getD 1) ++ [')'])
      ∧ (toLch K c = none →
          (formatValues K c).lch
            = "lch(0 0 0 / ".toList ++ formatAlpha (c.alpha.getD 1) ++ [')'])
      ∧ (toOklab K c = none →
          (formatValues K c).oklab
            = "oklab(0 0 0 / ".toList ++ formatAlpha (c.alpha.getD 1) ++ [')'])
      ∧ (toOklch c = none →
          (formatValues K c).oklch
            = "oklch(0 0 0 / ".toList ++ formatAlpha (c.alpha.getD 1) ++ [')']) := by
  rcases c with ⟨m, p, a⟩
  cases m
  case rgb =>
    refine ⟨?_, ?_, ?_, ?_, ?_, ?_, ?_⟩ <;>
      (intro h; simp [toRgb, toHsl, toHwb, toLab, toLch, toOklab, toOklch] at h)
  case hsl =>
    refine ⟨?_, ?_, ?_, ?_, ?_, ?_, ?_⟩ <;>
      (intro h; simp [toRgb, toHsl, toHwb, toLab, toLch, toOklab, toOklch] at h)
  case oklch =>
    refine ⟨?_, ?_, ?_, ?_, ?_, ?_, ?_⟩ <;>
      (intro h; simp [toRgb, toHsl, toHwb, toLab, toLch, toOklab, toOklch] at h)
  case unknown =>
    refine ⟨fun _ => ⟨rfl, ?_, ?_⟩, fun _ => ⟨?_, ?_⟩, fun _ => ?_, fun _ => ?_,
      fun _ => ?_, fun _ => ?_, fun _ => ?_⟩
    · rw [show (formatValues K ⟨Mode.unknown, p, a⟩).rgb
          = "rgb(".toList ++ intDecimal (jsRound (clamp 0 * 255)) ++ ", ".toList
            ++ intDecimal (jsRound (clamp 0 * 255)) ++ ", ".toList
            ++ intDecimal (jsRound (clamp 0 * 255)) ++ ")".toList from rfl, evCh0]
      decide
    · rw [show (formatValues K ⟨Mode.unknown, p, a⟩).rgba
          = "rgba(".toList ++ intDecimal (jsRound (clamp 0 * 255)) ++ ", ".toList
            ++ intDecimal (jsRound (clamp 0 * 255)) ++ ", ".toList
            ++ intDecimal (jsRound (clamp 0 * 255)) ++ ", ".toList
            ++ formatAlpha 1 ++ ")".toList from rfl, evCh0, evA1]
      decide
    · rw [show (formatValues K ⟨Mode.unknown, p, a⟩).hsl
          = "hsl(".toList ++ formatDecimal (normalizeHue (some 0)) 1 ++ ", ".toList
            ++ formatPercent 0 ++ ", ".toList ++ formatPercent 0 ++ ")".toList
          from rfl, evFd1, evFp0]
      decide
    · rw [show (formatValues K ⟨Mode.unknown, p, a⟩).hsla
          = "hsla(".toList ++ formatDecimal (normalizeHue (some 0)) 1 ++ ", ".toList
            ++ formatPercent 0 ++ ", ".toList ++ formatPercent 0 ++ ", ".toList
            ++ formatAlpha (Option.getD a 1) ++ ")".toList from rfl, evFd1, evFp0]
      simp
    · rw [show (formatValues K ⟨Mode.unknown, p, a⟩).hwb
          = "hwb(".toList ++ formatDecimal (normalizeHue (some 0)) 1 ++ " ".toList
            ++ formatPercent 0 ++ " ".toList ++ formatPercent 0 ++ " / ".toList
            ++ formatAlpha (Option.getD a 1) ++ ")".toList from rfl, evFd1, evFp0]
      simp
    · rw [show (formatValues K ⟨Mode.unknown, p, a⟩).lab
          = "lab(".toList ++ formatDecimal 0 2 ++ " ".toList ++ formatDecimal 0 3
            ++ " ".toList ++ formatDecimal 0 3 ++ " / ".toList
            ++ formatAlpha (Option.getD a 1) ++ ")".toList from rfl, evFd0_2, evFd0_3]
      simp
    · rw [show (formatValues K ⟨Mode.unknown, p, a⟩).lch
          = "lch(".toList ++ formatDecimal 0 2 ++ " ".toList ++ formatDecimal 0 3
            ++ " ".toList ++ formatDecimal (normalizeHue (some 0)) 1 ++ " / ".toList
            ++ formatAlpha (Option.getD a 1) ++ ")".toList
          from rfl, evFd0_2, evFd0_3, evFd1]
      simp
    · rw [show (formatValues K ⟨Mode.unknown, p, a⟩).oklab
          = "oklab(".toList ++ formatDecimal 0 3 ++ " ".toList ++ formatDecimal 0 4
            ++ " ".toList ++ formatDecimal 0 4 ++ " / ".toList
            ++ formatAlpha (Option.getD a 1) ++ ")".toList from rfl, evFd0_3, evFd0_4]
      simp
    · rw [show (formatValues K ⟨Mode.unknown, p, a⟩).oklch
          = "oklch(".toList ++ formatDecimal 0 3 ++ " ".toList ++ formatDecimal 0 4
            ++ " ".toList ++ formatDecimal 0 1 ++ " / ".toList
            ++ formatAlpha (Option.getD a (Option.getD a 1)) ++ ")".toList
          from rfl, evFd0_3, evFd0_4, evFd0_1, getD_getD_one]
      simp

/-- C9 witness: on a record every conversion fails on, the hex, hsla
and oklch fields still render, with zero channels and alpha 1. -/
theorem conversion_fallback_zeroed_witness :
    toRgb unknownColor = none
      ∧ (formatValues zeroCharts unknownColor).hex = "#000000".toList
      ∧ (formatValues zeroCharts unknownColor).hsla = "hsla(0, 0%, 0%, 1)".toList
      ∧ (formatValues zeroCharts unknownColor).oklch = "oklch(0 0 0 / 1)".toList := by
  have h := conversion_fallback_zeroed zeroCharts unknownColor
  refine ⟨rfl, (h.1 rfl).1, ?_, ?_⟩
  · rw [(h.2.1 rfl).2]
    rw [show (unknownColor.alpha.getD 1) = 1 from rfl, evA1]
    decide
  · rw [h.2.2.2.2.2.2 rfl]
    rw [show (unknownColor.alpha.getD 1) = 1 from rfl, evA1]
    decide

end ColorConverter
